import Mathlib

/-!
Verification of `tonic`'s client-side TLS configuration slice
(`src/tonic/src/transport/channel/tls.rs`): the `ClientTlsConfig` builder
and its `tls_connector` resolution algorithm, shallowly embedded in Lean.
-/

namespace Tonic

/-- Modelled from the spec: `Certificate` is an opaque, externally-produced CA
certificate blob (parsing lives outside the given slice). The `wellFormed`
flag abstracts whether the external TLS engine accepts its bytes
("malformed certificate bytes" is the stated engine failure mode). -/
structure Certificate where
  bytes : String
  wellFormed : Bool
deriving DecidableEq, Repr

/-- Modelled from the spec: `Identity` is an opaque client certificate/key
pair for mutual TLS. `wellFormed` abstracts engine acceptance. -/
structure Identity where
  certBytes : String
  keyBytes : String
  wellFormed : Bool
deriving DecidableEq, Repr

/-- Modelled from the spec: `tokio_rustls::rustls::ClientConfig`, an opaque
fully-specified engine configuration supplied verbatim by the caller.
`supported` abstracts whether the engine accepts it ("unsupported raw
configuration" is the stated engine failure mode). -/
structure RustlsClientConfig where
  data : String
  supported : Bool
deriving DecidableEq, Repr

/-- Modelled from the spec: the error taxonomy surfaced by `tls_connector` —
`invalidUri` is `Error::new_invalid_uri()` (the spec's `InvalidTargetError`:
no usable hostname) and `tlsEngineError` is the spec's `TlsEngineError`
(the external engine rejected the assembled configuration). -/
inductive Error where
  | invalidUri
  | tlsEngineError
deriving DecidableEq, Repr

/-- A parsed target URI. The code under verification only reads the host
component (`uri.host()`, an optional value); scheme and port are carried for
fidelity to `http::Uri` but never inspected. -/
structure Uri where
  scheme : Option String
  host : Option String
  port : Option Nat
deriving DecidableEq, Repr

/-- Modelled from the spec: the opaque `TlsConnector` produced by the external
engine. It records exactly what the engine constructor was handed, since the
core never inspects it further ("the object returned to the transport
layer"). -/
inductive TlsConnector where
  | rustlsCert (cert : Option Certificate) (identity : Option Identity)
      (certs_validation : Bool) (domain : String)
  | rustlsRaw (config : RustlsClientConfig) (domain : String)
deriving DecidableEq, Repr

/-- The verification domain recorded in a connector. -/
def TlsConnector.domain : TlsConnector → String
  | .rustlsCert _ _ _ d => d
  | .rustlsRaw _ d => d

/-- The certificate-validation flag recorded in a connector
(`none` for the raw-configuration branch, which carries no such flag). -/
def TlsConnector.certsValidationOf : TlsConnector → Option Bool
  | .rustlsCert _ _ v _ => some v
  | .rustlsRaw _ _ => none

/-- Modelled from the spec: `TlsConnector::new_with_rustls_cert` — the
default-engine constructor (not part of the given slice). It assembles a
connector from the optional CA certificate, optional identity, validation
flag and domain, and rejects malformed trust material as `TlsEngineError`. -/
def TlsConnector.new_with_rustls_cert (cert : Option Certificate)
    (identity : Option Identity) (certs_validation : Bool) (domain : String) :
    Except Error TlsConnector :=
  if cert.all Certificate.wellFormed && identity.all Identity.wellFormed then
    .ok (.rustlsCert cert identity certs_validation domain)
  else
    .error .tlsEngineError

/-- Modelled from the spec: `TlsConnector::new_with_rustls_raw` — the
raw-configuration constructor (not part of the given slice). It builds the
connector directly from the supplied raw engine configuration plus the
resolved domain, and rejects an unsupported raw configuration as
`TlsEngineError`. -/
def TlsConnector.new_with_rustls_raw (config : RustlsClientConfig)
    (domain : String) : Except Error TlsConnector :=
  if config.supported then
    .ok (.rustlsRaw config domain)
  else
    .error .tlsEngineError

/-- `ClientTlsConfig` (src/tonic/src/transport/channel/tls.rs, lines 13-20):
the TLS configuration builder. `certs_validation` exists only under the
`tls-dangerous` feature; it is carried unconditionally here and the feature
gate is a parameter of `tls_connector`. -/
structure ClientTlsConfig where
  domain : Option String
  cert : Option Certificate
  identity : Option Identity
  rustls_raw : Option RustlsClientConfig
  certs_validation : Bool
deriving DecidableEq, Repr

/-- `ClientTlsConfig::new` (lines 36-45): all overrides unset,
`certs_validation` initialised to `true`. -/
def ClientTlsConfig.new : ClientTlsConfig :=
  { domain := none
    cert := none
    identity := none
    rustls_raw := none
    certs_validation := true }

/-- `ClientTlsConfig::domain_name` (lines 50-55). -/
def ClientTlsConfig.domain_name (self : ClientTlsConfig) (d : String) :
    ClientTlsConfig :=
  { self with domain := some d }

/-- `ClientTlsConfig::ca_certificate` (lines 60-65). -/
def ClientTlsConfig.ca_certificate (self : ClientTlsConfig)
    (ca_certificate : Certificate) : ClientTlsConfig :=
  { self with cert := some ca_certificate }

/-- `ClientTlsConfig::identity` (lines 70-75); named `identity'` because the
structure projection already takes the source name. -/
def ClientTlsConfig.identity' (self : ClientTlsConfig) (i : Identity) :
    ClientTlsConfig :=
  { self with identity := some i }

/-- `ClientTlsConfig::rustls_client_config` (lines 80-85). -/
def ClientTlsConfig.rustls_client_config (self : ClientTlsConfig)
    (config : RustlsClientConfig) : ClientTlsConfig :=
  { self with rustls_raw := some config }

/-- `ClientTlsConfig::danger_accept_invalid_certs` (lines 100-107,
`tls-dangerous` feature). NOTE: the source assigns `certs_validation: true`
— the safe default — despite the method's documented purpose of disabling
validation. The embedding reproduces the source exactly. -/
def ClientTlsConfig.danger_accept_invalid_certs (self : ClientTlsConfig) :
    ClientTlsConfig :=
  { self with certs_validation := true }

/-- The domain-resolution step of `tls_connector` (lines 110-113): the
`domain` override verbatim if set, else the URI's host, else
`Error::new_invalid_uri()`. -/
def ClientTlsConfig.resolve_domain (self : ClientTlsConfig) (uri : Uri) :
    Except Error String :=
  match self.domain with
  | none =>
    match uri.host with
    | none => .error .invalidUri
    | some h => .ok h
  | some d => .ok d

/-- `ClientTlsConfig::tls_connector` (lines 109-136). `tls_dangerous` mirrors
the `tls-dangerous` compile-time feature gate: when it is off, the validation
flag handed to the engine is the literal `true`; when on, it is the builder's
`certs_validation` field. -/
def ClientTlsConfig.tls_connector (self : ClientTlsConfig)
    (tls_dangerous : Bool) (uri : Uri) : Except Error TlsConnector :=
  match self.resolve_domain uri with
  | .error e => .error e
  | .ok domain =>
    match self.rustls_raw with
    | none =>
      let certs_validation :=
        if tls_dangerous then self.certs_validation else true
      TlsConnector.new_with_rustls_cert self.cert self.identity
        certs_validation domain
    | some c => TlsConnector.new_with_rustls_raw c domain

/-- One public builder call, for reachability arguments over call
sequences. -/
inductive BuilderOp where
  | domain_name (d : String)
  | ca_certificate (c : Certificate)
  | identity (i : Identity)
  | rustls_client_config (cfg : RustlsClientConfig)
  | danger_accept_invalid_certs
deriving DecidableEq, Repr

/-- Apply one public builder call. -/
def ClientTlsConfig.applyOp (self : ClientTlsConfig) : BuilderOp →
    ClientTlsConfig
  | .domain_name d => self.domain_name d
  | .ca_certificate c => self.ca_certificate c
  | .identity i => self.identity' i
  | .rustls_client_config cfg => self.rustls_client_config cfg
  | .danger_accept_invalid_certs => self.danger_accept_invalid_certs

/-- Apply a sequence of public builder calls, left to right. -/
def ClientTlsConfig.applyOps (self : ClientTlsConfig)
    (ops : List BuilderOp) : ClientTlsConfig :=
  ops.foldl ClientTlsConfig.applyOp self

/- ## General lemmas about domain resolution -/

/-- Domain resolution depends only on the builder's `domain` field and the
URI's host. -/
theorem resolve_domain_congr (b b' : ClientTlsConfig) (u : Uri)
    (h : b.domain = b'.domain) : b.resolve_domain u = b'.resolve_domain u := by
  unfold ClientTlsConfig.resolve_domain
  rw [h]

/-- When the builder's `domain` override is set, resolution returns it. -/
theorem resolve_domain_of_override (b : ClientTlsConfig) (u : Uri)
    (d : String) (h : b.domain = some d) : b.resolve_domain u = .ok d := by
  unfold ClientTlsConfig.resolve_domain
  rw [h]

/-- When the builder has no override, resolution returns the URI host. -/
theorem resolve_domain_of_host (b : ClientTlsConfig) (u : Uri)
    (hs : String) (h1 : b.domain = none) (h2 : u.host = some hs) :
    b.resolve_domain u = .ok hs := by
  unfold ClientTlsConfig.resolve_domain
  rw [h1, h2]

/-- Every connector returned by `tls_connector` carries the resolved
domain. -/
theorem tls_connector_domain (b : ClientTlsConfig) (fl : Bool) (u : Uri)
    (d : String) (t : TlsConnector) (hd : b.resolve_domain u = .ok d)
    (ht : b.tls_connector fl u = .ok t) : t.domain = d := by
  unfold ClientTlsConfig.tls_connector at ht
  rw [hd] at ht
  cases hraw : b.rustls_raw with
  | none =>
    rw [hraw] at ht
    simp only [TlsConnector.new_with_rustls_cert] at ht
    split at ht
    · cases ht
      rfl
    · cases ht
  | some c =>
    rw [hraw] at ht
    simp only [TlsConnector.new_with_rustls_raw] at ht
    split at ht
    · cases ht
      rfl
    · cases ht

/- ## C1 -/

/-- C1: the claim states that after `danger_accept_invalid_certs` (with the
`tls-dangerous` feature compiled in) the non-raw branch of `tls_connector`
yields `certs_validation = false`. Evaluating the code at that exact input
shows the produced connector carries `certs_validation = true`: the method
body assigns `true`, contradicting its own documentation ("Disables
certificate validation"). -/
theorem c1_code_behavior_at_failing_input :
    ClientTlsConfig.new.danger_accept_invalid_certs.tls_connector true
        { scheme := some "https", host := some "example.com", port := none } =
      .ok (.rustlsCert none none true "example.com") := rfl

/- ## C3 -/

/-- C3: if the builder's domain override is set to `D`, the domain resolved
by `tls_connector` equals `D` verbatim, for every URI, whether or not the
URI has a host: the resolution step returns `D` and any connector produced
carries domain `D`. -/
theorem c3_domain_precedence (fl : Bool) (b : ClientTlsConfig) (d : String)
    (u : Uri) (h : b.domain = some d) :
    b.resolve_domain u = .ok d ∧
      ∀ t, b.tls_connector fl u = .ok t → t.domain = d := by
  have hd := resolve_domain_of_override b u d h
  exact ⟨hd, fun t ht => tls_connector_domain b fl u d t hd ht⟩

/-- C3 witness: a builder whose domain override is `"example.com"`, resolved
against a URI with host `"10.0.0.1"` and against a URI with no host at
all. -/
theorem c3_domain_precedence_witness :
    ((ClientTlsConfig.new.domain_name "example.com").resolve_domain
        { scheme := some "https", host := some "10.0.0.1", port := some 443 } =
          .ok "example.com" ∧
      ∀ t, (ClientTlsConfig.new.domain_name "example.com").tls_connector true
          { scheme := some "https", host := some "10.0.0.1", port := some 443 } =
            .ok t → t.domain = "example.com") ∧
    ((ClientTlsConfig.new.domain_name "example.com").resolve_domain
        { scheme := none, host := none, port := none } = .ok "example.com" ∧
      ∀ t, (ClientTlsConfig.new.domain_name "example.com").tls_connector true
          { scheme := none, host := none, port := none } =
            .ok t → t.domain = "example.com") :=
  ⟨c3_domain_precedence true (ClientTlsConfig.new.domain_name "example.com")
      "example.com"
      { scheme := some "https", host := some "10.0.0.1", port := some 443 }
      rfl,
    c3_domain_precedence true (ClientTlsConfig.new.domain_name "example.com")
      "example.com" { scheme := none, host := none, port := none } rfl⟩

/- ## C5 -/

/-- C5: with no domain override, the domain resolved by `tls_connector` is
the target URI's host: the resolution step returns the host `H` and any
connector produced carries domain `H`. -/
theorem c5_domain_fallback (fl : Bool) (b : ClientTlsConfig) (hs : String)
    (u : Uri) (h1 : b.domain = none) (h2 : u.host = some hs) :
    b.resolve_domain u = .ok hs ∧
      ∀ t, b.tls_connector fl u = .ok t → t.domain = hs := by
  have hd := resolve_domain_of_host b u hs h1 h2
  exact ⟨hd, fun t ht => tls_connector_domain b fl u hs t hd ht⟩

/-- C5 witness: the fresh builder against `https://api.example.org` resolves
to domain `"api.example.org"`. -/
theorem c5_domain_fallback_witness :
    ClientTlsConfig.new.resolve_domain
        { scheme := some "https", host := some "api.example.org", port := none } =
          .ok "api.example.org" ∧
      ∀ t, ClientTlsConfig.new.tls_connector false
          { scheme := some "https", host := some "api.example.org", port := none } =
            .ok t → t.domain = "api.example.org" :=
  c5_domain_fallback false ClientTlsConfig.new "api.example.org"
    { scheme := some "https", host := some "api.example.org", port := none }
    rfl rfl

/- ## C4 -/

/-- The engine constructors never report `invalidUri`. -/
theorem engine_never_invalid_uri (cert : Option Certificate)
    (i : Option Identity) (v : Bool) (d : String) (c : RustlsClientConfig) :
    TlsConnector.new_with_rustls_cert cert i v d ≠ .error .invalidUri ∧
      TlsConnector.new_with_rustls_raw c d ≠ .error .invalidUri := by
  constructor
  · unfold TlsConnector.new_with_rustls_cert
    split <;> simp
  · unfold TlsConnector.new_with_rustls_raw
    split <;> simp

/-- C4: `tls_connector` fails with `InvalidTargetError` exactly when the
builder has no domain override and the target URI has no host; in
particular, with a domain override set it never reports that error. -/
theorem c4_invalid_target_iff (fl : Bool) (b : ClientTlsConfig) (u : Uri) :
    b.tls_connector fl u = .error .invalidUri ↔
      b.domain = none ∧ u.host = none := by
  constructor
  · intro h
    unfold ClientTlsConfig.tls_connector at h
    cases hd : b.resolve_domain u with
    | error e =>
      unfold ClientTlsConfig.resolve_domain at hd
      cases hdom : b.domain with
      | none =>
        cases hhost : u.host with
        | none => exact ⟨rfl, rfl⟩
        | some hs => rw [hdom, hhost] at hd; cases hd
      | some d => rw [hdom] at hd; cases hd
    | ok d =>
      rw [hd] at h
      cases hraw : b.rustls_raw with
      | none =>
        rw [hraw] at h
        exact absurd h
          (engine_never_invalid_uri b.cert b.identity
            (if fl then b.certs_validation else true) d ⟨"", true⟩).1
      | some c =>
        rw [hraw] at h
        exact absurd h (engine_never_invalid_uri none none true d c).2
  · intro ⟨h1, h2⟩
    unfold ClientTlsConfig.tls_connector ClientTlsConfig.resolve_domain
    rw [h1, h2]

/-- C4 witness: the fresh builder against a host-less URI yields
`invalidUri`; with a domain override set, the same URI does not. -/
theorem c4_invalid_target_iff_witness :
    (ClientTlsConfig.new.tls_connector true
        { scheme := none, host := none, port := none } =
          .error .invalidUri ↔
        ClientTlsConfig.new.domain = none ∧
          (none : Option String) = none) ∧
      ClientTlsConfig.new.tls_connector true
        { scheme := none, host := none, port := none } =
          .error .invalidUri :=
  ⟨c4_invalid_target_iff true ClientTlsConfig.new
      { scheme := none, host := none, port := none },
    (c4_invalid_target_iff true ClientTlsConfig.new
        { scheme := none, host := none, port := none }).2 ⟨rfl, rfl⟩⟩

/- ## C2 -/

/-- With the raw override set, `tls_connector` produces the same result for
any two builders agreeing on `domain` and `rustls_raw`. -/
theorem tls_connector_raw_congr (fl : Bool) (b b' : ClientTlsConfig)
    (cfg : RustlsClientConfig) (u : Uri) (hdom : b.domain = b'.domain)
    (hraw : b.rustls_raw = some cfg) (hraw' : b'.rustls_raw = some cfg) :
    b.tls_connector fl u = b'.tls_connector fl u := by
  unfold ClientTlsConfig.tls_connector
  rw [resolve_domain_congr b b' u hdom, hraw, hraw']

/-- C2: when `rustls_raw` is set and the domain is resolvable, the connector
depends only on the raw configuration and the resolved domain: updating the
CA certificate, the identity, or the validation flag leaves the result
unchanged, and the result is exactly the raw-branch engine call. -/
theorem c2_raw_override_exclusivity (fl : Bool) (b : ClientTlsConfig)
    (cfg : RustlsClientConfig) (u : Uri) (c : Certificate) (i : Identity)
    (hraw : b.rustls_raw = some cfg)
    (hdom : b.domain ≠ none ∨ u.host ≠ none) :
    (b.ca_certificate c).tls_connector fl u = b.tls_connector fl u ∧
    (b.identity' i).tls_connector fl u = b.tls_connector fl u ∧
    b.danger_accept_invalid_certs.tls_connector fl u =
      b.tls_connector fl u ∧
    ∃ d, b.resolve_domain u = .ok d ∧
      b.tls_connector fl u = TlsConnector.new_with_rustls_raw cfg d := by
  refine ⟨?_, ?_, ?_, ?_⟩
  · exact tls_connector_raw_congr fl (b.ca_certificate c) b cfg u rfl hraw hraw
  · exact tls_connector_raw_congr fl (b.identity' i) b cfg u rfl hraw hraw
  · exact tls_connector_raw_congr fl b.danger_accept_invalid_certs b cfg u
      rfl hraw hraw
  · have hd : ∃ d, b.resolve_domain u = .ok d := by
      unfold ClientTlsConfig.resolve_domain
      cases hb : b.domain with
      | some d => exact ⟨d, rfl⟩
      | none =>
        cases hh : u.host with
        | some hs => exact ⟨hs, rfl⟩
        | none =>
          rcases hdom with h | h
          · exact absurd hb h
          · exact absurd hh h
    obtain ⟨d, hd⟩ := hd
    refine ⟨d, hd, ?_⟩
    unfold ClientTlsConfig.tls_connector
    rw [hd, hraw]

/-- C2 witness: a builder holding a raw configuration, then further mutated
with a CA certificate, an identity and the danger flag, resolved against
`https://h`. -/
theorem c2_raw_override_exclusivity_witness :
    ((ClientTlsConfig.new.rustls_client_config ⟨"raw", true⟩).ca_certificate
          ⟨"pem", true⟩).tls_connector true
        { scheme := some "https", host := some "h", port := none } =
      (ClientTlsConfig.new.rustls_client_config ⟨"raw", true⟩).tls_connector
        true { scheme := some "https", host := some "h", port := none } ∧
    ((ClientTlsConfig.new.rustls_client_config ⟨"raw", true⟩).identity'
          ⟨"cert", "key", true⟩).tls_connector true
        { scheme := some "https", host := some "h", port := none } =
      (ClientTlsConfig.new.rustls_client_config ⟨"raw", true⟩).tls_connector
        true { scheme := some "https", host := some "h", port := none } ∧
    (ClientTlsConfig.new.rustls_client_config
          ⟨"raw", true⟩).danger_accept_invalid_certs.tls_connector true
        { scheme := some "https", host := some "h", port := none } =
      (ClientTlsConfig.new.rustls_client_config ⟨"raw", true⟩).tls_connector
        true { scheme := some "https", host := some "h", port := none } ∧
    ∃ d, (ClientTlsConfig.new.rustls_client_config
          ⟨"raw", true⟩).resolve_domain
        { scheme := some "https", host := some "h", port := none } = .ok d ∧
      (ClientTlsConfig.new.rustls_client_config ⟨"raw", true⟩).tls_connector
          true { scheme := some "https", host := some "h", port := none } =
        TlsConnector.new_with_rustls_raw ⟨"raw", true⟩ d :=
  c2_raw_override_exclusivity true
    (ClientTlsConfig.new.rustls_client_config ⟨"raw", true⟩) ⟨"raw", true⟩
    { scheme := some "https", host := some "h", port := none }
    ⟨"pem", true⟩ ⟨"cert", "key", true⟩ rfl (Or.inr (by simp))

/- ## C6 -/

/-- Every builder with `certs_validation = true` and no raw override hands
`true` to the engine, so every connector it produces records validation
enforced; the same holds for any builder when the dangerous feature is
compiled out (`fl = false`). -/
theorem tls_connector_validation_true (fl : Bool) (b : ClientTlsConfig)
    (u : Uri) (hval : fl = false ∨ b.certs_validation = true)
    (hraw : b.rustls_raw = none) :
    ∀ t, b.tls_connector fl u = .ok t → t.certsValidationOf = some true := by
  intro t ht
  unfold ClientTlsConfig.tls_connector at ht
  cases hd : b.resolve_domain u with
  | error e => rw [hd] at ht; cases ht
  | ok d =>
    rw [hd, hraw] at ht
    simp only [TlsConnector.new_with_rustls_cert] at ht
    split at ht
    · cases ht
      have hv : (if fl then b.certs_validation else true) = true := by
        rcases hval with h | h
        · rw [h]; rfl
        · rw [h]; split <;> rfl
      rw [TlsConnector.certsValidationOf, hv]
    · cases ht

/-- C6: a freshly constructed builder, resolved against any URI with a host,
yields a connector with validation enforced, whether or not the dangerous
feature is compiled in; and with the feature compiled out, every builder
without a raw override yields validation enforced. -/
theorem c6_default_validation (fl : Bool) (b : ClientTlsConfig) (u : Uri)
    (hs : String) (hhost : u.host = some hs) :
    ClientTlsConfig.new.tls_connector fl u =
        .ok (.rustlsCert none none true hs) ∧
      (b.rustls_raw = none →
        ∀ t, b.tls_connector false u = .ok t →
          t.certsValidationOf = some true) := by
  constructor
  · unfold ClientTlsConfig.tls_connector ClientTlsConfig.resolve_domain
      ClientTlsConfig.new TlsConnector.new_with_rustls_cert
    rw [hhost]
    cases fl <;> rfl
  · intro hraw
    exact tls_connector_validation_true false b u (Or.inl rfl) hraw

/-- C6 witness: the fresh builder against `https://api.example.org`, with
the dangerous feature compiled in; plus the feature-off half evaluated on
the fresh builder itself. -/
theorem c6_default_validation_witness :
    ClientTlsConfig.new.tls_connector true
        { scheme := some "https", host := some "api.example.org", port := none } =
      .ok (.rustlsCert none none true "api.example.org") ∧
    (ClientTlsConfig.new.rustls_raw = none →
      ∀ t, ClientTlsConfig.new.tls_connector false
          { scheme := some "https", host := some "api.example.org", port := none } =
        .ok t → t.certsValidationOf = some true) :=
  c6_default_validation true ClientTlsConfig.new
    { scheme := some "https", host := some "api.example.org", port := none }
    "api.example.org" rfl

/- ## C7 -/

/-- C7: each mutator sets exactly its own field and copies every other field
from the input builder; in particular the mutators are total functions on
builder values (no failure is possible) and, being functional updates, the
input value itself is unchanged. -/
theorem c7_mutator_frame (b : ClientTlsConfig) (d : String)
    (c : Certificate) (i : Identity) (cfg : RustlsClientConfig) :
    ((b.domain_name d).domain = some d ∧ (b.domain_name d).cert = b.cert ∧
      (b.domain_name d).identity = b.identity ∧
      (b.domain_name d).rustls_raw = b.rustls_raw ∧
      (b.domain_name d).certs_validation = b.certs_validation) ∧
    ((b.ca_certificate c).cert = some c ∧
      (b.ca_certificate c).domain = b.domain ∧
      (b.ca_certificate c).identity = b.identity ∧
      (b.ca_certificate c).rustls_raw = b.rustls_raw ∧
      (b.ca_certificate c).certs_validation = b.certs_validation) ∧
    ((b.identity' i).identity = some i ∧ (b.identity' i).domain = b.domain ∧
      (b.identity' i).cert = b.cert ∧
      (b.identity' i).rustls_raw = b.rustls_raw ∧
      (b.identity' i).certs_validation = b.certs_validation) ∧
    ((b.rustls_client_config cfg).rustls_raw = some cfg ∧
      (b.rustls_client_config cfg).domain = b.domain ∧
      (b.rustls_client_config cfg).cert = b.cert ∧
      (b.rustls_client_config cfg).identity = b.identity ∧
      (b.rustls_client_config cfg).certs_validation = b.certs_validation) ∧
    (b.danger_accept_invalid_certs.certs_validation = true ∧
      b.danger_accept_invalid_certs.domain = b.domain ∧
      b.danger_accept_invalid_certs.cert = b.cert ∧
      b.danger_accept_invalid_certs.identity = b.identity ∧
      b.danger_accept_invalid_certs.rustls_raw = b.rustls_raw) :=
  ⟨⟨rfl, rfl, rfl, rfl, rfl⟩, ⟨rfl, rfl, rfl, rfl, rfl⟩,
    ⟨rfl, rfl, rfl, rfl, rfl⟩, ⟨rfl, rfl, rfl, rfl, rfl⟩,
    ⟨rfl, rfl, rfl, rfl, rfl⟩⟩

/- ## C8 -/

/-- C8: `tls_connector` is deterministic — two resolutions of the same
builder value against the same URI return the same result, hence the same
success/failure outcome and, on success, connectors with the same domain,
trust material and validation flag. -/
theorem c8_deterministic (fl : Bool) (b : ClientTlsConfig) (u : Uri) :
    b.tls_connector fl u = b.tls_connector fl u ∧
      ∀ t₁ t₂, b.tls_connector fl u = .ok t₁ →
        b.tls_connector fl u = .ok t₂ →
          t₁ = t₂ ∧ t₁.domain = t₂.domain ∧
            t₁.certsValidationOf = t₂.certsValidationOf := by
  refine ⟨rfl, fun t₁ t₂ h₁ h₂ => ?_⟩
  rw [h₁] at h₂
  cases h₂
  exact ⟨rfl, rfl, rfl⟩

/-- C8 witness: two resolutions of a concrete builder against a concrete
URI agree. -/
theorem c8_deterministic_witness :
    (ClientTlsConfig.new.domain_name "example.com").tls_connector true
        { scheme := some "https", host := some "10.0.0.1", port := some 443 } =
      (ClientTlsConfig.new.domain_name "example.com").tls_connector true
        { scheme := some "https", host := some "10.0.0.1", port := some 443 } ∧
    ∀ t₁ t₂,
      (ClientTlsConfig.new.domain_name "example.com").tls_connector true
          { scheme := some "https", host := some "10.0.0.1", port := some 443 } =
        .ok t₁ →
      (ClientTlsConfig.new.domain_name "example.com").tls_connector true
          { scheme := some "https", host := some "10.0.0.1", port := some 443 } =
        .ok t₂ →
        t₁ = t₂ ∧ t₁.domain = t₂.domain ∧
          t₁.certsValidationOf = t₂.certsValidationOf :=
  c8_deterministic true (ClientTlsConfig.new.domain_name "example.com")
    { scheme := some "https", host := some "10.0.0.1", port := some 443 }

/- ## C9 -/

/-- C9: `tls_connector` always returns either a fully constructed connector
or one of the two errors; when a domain resolves, the result is exactly the
engine constructor's result, propagated unchanged (no retry, no
substitution); and a domain-resolution failure is reported as
`invalidUri`. -/
theorem c9_total_outcomes (fl : Bool) (b : ClientTlsConfig) (u : Uri) :
    ((∃ t, b.tls_connector fl u = .ok t) ∨
      b.tls_connector fl u = .error .invalidUri ∨
      b.tls_connector fl u = .error .tlsEngineError) ∧
    (∀ d, b.resolve_domain u = .ok d →
      b.tls_connector fl u =
        match b.rustls_raw with
        | none => TlsConnector.new_with_rustls_cert b.cert b.identity
            (if fl then b.certs_validation else true) d
        | some c => TlsConnector.new_with_rustls_raw c d) ∧
    (b.resolve_domain u = .error .invalidUri →
      b.tls_connector fl u = .error .invalidUri) := by
  refine ⟨?_, ?_, ?_⟩
  · cases h : b.tls_connector fl u with
    | ok t => exact Or.inl ⟨t, rfl⟩
    | error e =>
      cases e with
      | invalidUri => exact Or.inr (Or.inl rfl)
      | tlsEngineError => exact Or.inr (Or.inr rfl)
  · intro d hd
    unfold ClientTlsConfig.tls_connector
    rw [hd]
  · intro h
    unfold ClientTlsConfig.tls_connector
    rw [h]

/-- C9 witness: the outcome classification at a concrete builder carrying a
malformed CA certificate, where the engine rejects the trust material. -/
theorem c9_total_outcomes_witness :
    (((∃ t, (ClientTlsConfig.new.ca_certificate ⟨"bad", false⟩).tls_connector
          true { scheme := some "https", host := some "h", port := none } =
            .ok t) ∨
      (ClientTlsConfig.new.ca_certificate ⟨"bad", false⟩).tls_connector true
          { scheme := some "https", host := some "h", port := none } =
        .error .invalidUri ∨
      (ClientTlsConfig.new.ca_certificate ⟨"bad", false⟩).tls_connector true
          { scheme := some "https", host := some "h", port := none } =
        .error .tlsEngineError) ∧
    (∀ d, (ClientTlsConfig.new.ca_certificate ⟨"bad", false⟩).resolve_domain
          { scheme := some "https", host := some "h", port := none } =
        .ok d →
      (ClientTlsConfig.new.ca_certificate ⟨"bad", false⟩).tls_connector true
          { scheme := some "https", host := some "h", port := none } =
        match (ClientTlsConfig.new.ca_certificate ⟨"bad", false⟩).rustls_raw
          with
        | none => TlsConnector.new_with_rustls_cert
            (ClientTlsConfig.new.ca_certificate ⟨"bad", false⟩).cert
            (ClientTlsConfig.new.ca_certificate ⟨"bad", false⟩).identity
            (if true then
              (ClientTlsConfig.new.ca_certificate
                ⟨"bad", false⟩).certs_validation
            else true) d
        | some c => TlsConnector.new_with_rustls_raw c d) ∧
    ((ClientTlsConfig.new.ca_certificate ⟨"bad", false⟩).resolve_domain
        { scheme := some "https", host := some "h", port := none } =
          .error .invalidUri →
      (ClientTlsConfig.new.ca_certificate ⟨"bad", false⟩).tls_connector true
          { scheme := some "https", host := some "h", port := none } =
        .error .invalidUri)) ∧
    (ClientTlsConfig.new.ca_certificate ⟨"bad", false⟩).tls_connector true
        { scheme := some "https", host := some "h", port := none } =
      .error .tlsEngineError :=
  ⟨c9_total_outcomes true (ClientTlsConfig.new.ca_certificate ⟨"bad", false⟩)
      { scheme := some "https", host := some "h", port := none }, rfl⟩

/- ## C10 -/

/-- Every single public builder call preserves `certs_validation = true`
(`danger_accept_invalid_certs` re-assigns the literal `true`). -/
theorem applyOp_preserves_validation (b : ClientTlsConfig) (op : BuilderOp)
    (h : b.certs_validation = true) :
    (b.applyOp op).certs_validation = true := by
  cases op <;> first | exact h | rfl

/-- Any sequence of public builder calls preserves
`certs_validation = true`. -/
theorem applyOps_validation (ops : List BuilderOp) :
    ∀ b : ClientTlsConfig, b.certs_validation = true →
      (b.applyOps ops).certs_validation = true := by
  induction ops with
  | nil => exact fun _ h => h
  | cons op rest ih =>
    exact fun b h => ih (b.applyOp op) (applyOp_preserves_validation b op h)

/-- C10: in every builder reachable from `new` by public calls — including
`danger_accept_invalid_certs` — `certs_validation` is `true`, so every
successful non-raw resolution hands "validation enforced" to the engine; no
call sequence can disable certificate validation. -/
theorem c10_validation_invariant (ops : List BuilderOp) (fl : Bool)
    (u : Uri) :
    (ClientTlsConfig.new.applyOps ops).certs_validation = true ∧
      ((ClientTlsConfig.new.applyOps ops).rustls_raw = none →
        ∀ t, (ClientTlsConfig.new.applyOps ops).tls_connector fl u = .ok t →
          t.certsValidationOf = some true) := by
  have hval := applyOps_validation ops ClientTlsConfig.new rfl
  exact ⟨hval, fun hraw =>
    tls_connector_validation_true fl _ u (Or.inr hval) hraw⟩

/-- C10 witness: the call sequence that invokes
`danger_accept_invalid_certs`, with the dangerous feature compiled in,
still yields validation enforced. -/
theorem c10_validation_invariant_witness :
    (ClientTlsConfig.new.applyOps
        [.danger_accept_invalid_certs]).certs_validation = true ∧
      ((ClientTlsConfig.new.applyOps
          [.danger_accept_invalid_certs]).rustls_raw = none →
        ∀ t, (ClientTlsConfig.new.applyOps
            [.danger_accept_invalid_certs]).tls_connector true
            { scheme := some "https", host := some "example.com",
              port := none } = .ok t →
          t.certsValidationOf = some true) :=
  c10_validation_invariant [.danger_accept_invalid_certs] true
    { scheme := some "https", host := some "example.com", port := none }

end Tonic
